import Mathlib

/-!
Verification of the evaluation-and-lifecycle engine of the solana_bot
repository (scripts solana_bot_v1.py .. solana_bot_v6_gpt.py).

The engine is embedded shallowly:
* Python numbers are exact rationals (`ℚ`);
* a JSON field value is a `PyVal`; a string value carries the result of
  Python's `float()` on it (`some q` when it parses, `none` when `float`
  would raise `ValueError`);
* a token record (`Token`) has one optional slot per recognized field,
  `none` meaning the key is absent, matching `dict.get` defaults;
* Python code that can raise is a `Except Unit` computation, sequenced by
  `eBind`; a `try/except` wrapper catches the error, exactly as in the
  source.

Function names follow solana_bot_v6_gpt.py (v6), the most complete
revision; `advanced_rug_pull_check` is taken from solana_bot_v5_gpt.py
(v5), the revision that defines it in the form v6's `buy_token` calls.
-/

/-- A Python value as it appears in a token-record field. A string carries
the result of `float()` applied to it: `some q` when the string is numeric,
`none` when `float` would raise. -/
inductive PyVal where
  | num : ℚ → PyVal
  | str : String → Option ℚ → PyVal
  | pybool : Bool → PyVal
  | pynone : PyVal
deriving DecidableEq, Repr

/-- Python truthiness of a `PyVal`: a number is truthy iff nonzero, a string
iff nonempty, a bool iff `true`, `None` is falsy. -/
def truthy : PyVal → Bool
  | .num q => decide (q ≠ 0)
  | .str s _ => decide (s ≠ "")
  | .pybool b => b
  | .pynone => false

/-- Python's `float()` builtin on a `PyVal`: numbers pass through, strings
use their recorded parse, bools become 0/1, `None` and unparseable strings
raise (modelled as `Except.error`). -/
def pyFloat : PyVal → Except Unit ℚ
  | .num q => .ok q
  | .str _ (some q) => .ok q
  | .str _ none => .error ()
  | .pybool b => .ok (if b then 1 else 0)
  | .pynone => .error ()

/-- `token.get(key, 0)`: a missing field defaults to the integer `0`. -/
def getD0 (o : Option PyVal) : PyVal := o.getD (.num 0)

/-- Exception-propagating sequencing, the shape of straight-line Python
code inside a `try` block. -/
def eBind {α β : Type} : Except Unit α → (α → Except Unit β) → Except Unit β
  | .error e, _ => .error e
  | .ok a, f => f a

/-- A token record as fetched from the feed: each recognized field is
present (`some`) or absent (`none`). Address-like fields are strings. -/
structure Token where
  tokenAddress : Option String := none
  devAddress : Option String := none
  symbol : Option String := none
  supplyBundled : Option PyVal := none
  liquidityUsd : Option PyVal := none
  fdvUsd : Option PyVal := none
  marketCapUsd : Option PyVal := none
  pairAgeHours : Option PyVal := none
  txns1h : Option PyVal := none
  txns24h : Option PyVal := none
  volumeUsd24Hr : Option PyVal := none
  volumeUsd6h : Option PyVal := none
  priceUsd : Option PyVal := none
deriving DecidableEq, Repr

/-- The blacklist configuration read from config.json (v6 `load_config`),
taken as already loaded, per the spec's immutable blacklist sets. -/
structure Config where
  coin_blacklist : List String := []
  dev_blacklist : List String := []
deriving DecidableEq, Repr

/-- A token record all of whose numeric fields are JSON numbers (or absent)
and whose `supplyBundled` is a JSON bool (or absent) — the normalized
records of the spec's data model. -/
def mkNumToken (addr dev sym : Option String) (bundled : Option Bool)
    (liq fdv mc age t1 t24 v24 v6 price : Option ℚ) : Token :=
  { tokenAddress := addr
    devAddress := dev
    symbol := sym
    supplyBundled := bundled.map PyVal.pybool
    liquidityUsd := liq.map PyVal.num
    fdvUsd := fdv.map PyVal.num
    marketCapUsd := mc.map PyVal.num
    pairAgeHours := age.map PyVal.num
    txns1h := t1.map PyVal.num
    txns24h := t24.map PyVal.num
    volumeUsd24Hr := v24.map PyVal.num
    volumeUsd6h := v6.map PyVal.num
    priceUsd := price.map PyVal.num }

/-- The numeric value of an optional field of a normalized record:
absent or non-number gives 0 (only used on number-or-absent fields). -/
def numD0 (o : Option PyVal) : ℚ :=
  match o with
  | some (.num q) => q
  | _ => 0

-- ---------------------------------------------------------------------
-- Filter functions (v6 lines 97-125)
-- ---------------------------------------------------------------------

/-- v6 `verify_volume`: `float(token.get("volumeUsd24Hr", 0)) > 0`; the
`float` call can raise. -/
def verify_volume (t : Token) : Except Unit Bool :=
  eBind (pyFloat (getD0 t.volumeUsd24Hr)) fun volume =>
    .ok (decide (volume > 0))

/-- v6 `check_rug_status` stubs an external Rugcheck.xyz API call
(`return True`). Modelled from the spec: the external rug-status check is
a boolean collaborator, passed in as the oracle `rug`; instantiating
`rug := fun _ => true` gives the v6 stub exactly. -/
def check_rug_status (rug : String → Bool) (token_address : String) : Bool :=
  rug token_address

/-- v6 `check_supply`: `not token.get("supplyBundled", False)` (Python
truthiness of whatever value is stored). -/
def check_supply (t : Token) : Bool :=
  !(truthy (t.supplyBundled.getD (.pybool false)))

/-- v6 `coin_in_blacklist`: case-insensitive membership of the token
address in the configured coin blacklist. -/
def coin_in_blacklist (cfg : Config) (t : Token) : Bool :=
  (cfg.coin_blacklist.map String.toLower).contains ((t.tokenAddress.getD "").toLower)

/-- v6 `dev_in_blacklist`: case-insensitive membership of the developer
address in the configured dev blacklist. -/
def dev_in_blacklist (cfg : Config) (t : Token) : Bool :=
  (cfg.dev_blacklist.map String.toLower).contains ((t.devAddress.getD "").toLower)

-- ---------------------------------------------------------------------
-- Categorization (v6 lines 130-169)
-- ---------------------------------------------------------------------

/-- The numeric locals parsed at the top of v6 `categorize_token`
(lines 136-143). -/
structure Nums where
  liquidity : ℚ
  fdv : ℚ
  pair_age : ℚ
  txns1h : ℚ
  txns24h : ℚ
  volume24h : ℚ
  volume6h : ℚ
deriving DecidableEq, Repr

/-- v6 `categorize_token` lines 136-143: parse the numeric fields, any
failure raising. `fdv` is `token.get("fdvUsd", token.get("marketCapUsd", 0))`
put through `float(fdv) if fdv else 0`. -/
def parse_nums (t : Token) : Except Unit Nums :=
  eBind (pyFloat (getD0 t.liquidityUsd)) fun liquidity =>
    (eBind (if truthy (t.fdvUsd.getD (getD0 t.marketCapUsd)) then
        pyFloat (t.fdvUsd.getD (getD0 t.marketCapUsd)) else .ok 0) fun fdv =>
      eBind (pyFloat (getD0 t.pairAgeHours)) fun pair_age =>
        eBind (pyFloat (getD0 t.txns1h)) fun txns1h =>
          eBind (pyFloat (getD0 t.txns24h)) fun txns24h =>
            eBind (pyFloat (getD0 t.volumeUsd24Hr)) fun volume24h =>
              eBind (pyFloat (getD0 t.volumeUsd6h)) fun volume6h =>
                .ok ⟨liquidity, fdv, pair_age, txns1h, txns24h, volume24h, volume6h⟩)

/-- The two guard statements of v6 `categorize_token` (lines 146-149):
blacklists and supply, then volume verification and rug status. Returns
`false` when a guard rejects; `verify_volume` may raise. -/
def categorize_checks (cfg : Config) (rug : String → Bool) (t : Token) : Except Unit Bool :=
  eBind (parse_nums t) fun _ =>
    if coin_in_blacklist cfg t || dev_in_blacklist cfg t || !(check_supply t) then .ok false
    else
      eBind (verify_volume t) fun vv =>
        if !vv || !(check_rug_status rug (t.tokenAddress.getD "")) then .ok false
        else .ok true

/-- The tier ladder of v6 `categorize_token` (lines 151-166), first match
wins, in source order. -/
def tier_of (n : Nums) : Option String :=
  if n.liquidity ≥ 10000 ∧ n.fdv ≥ 100000 ∧ 0 ≤ n.pair_age ∧ n.pair_age ≤ 48 ∧ n.txns1h ≥ 30 then
    some "Very Degen"
  else if n.liquidity ≥ 15000 ∧ n.fdv ≥ 100000 ∧ 1 ≤ n.pair_age ∧ n.pair_age ≤ 72 ∧ n.txns1h ≥ 100 then
    some "Degen"
  else if n.liquidity ≥ 100000 ∧ n.fdv ≥ 1000000 ∧ n.volume24h ≥ 1200000 ∧ n.txns24h ≥ 30 then
    some "Mid-Caps"
  else if n.liquidity ≥ 100000 ∧ n.fdv ≥ 200000 ∧ n.fdv ≤ 100000000 ∧ 720 ≤ n.pair_age ∧ n.pair_age ≤ 2800 ∧ n.volume24h ≥ 200000 ∧ n.txns24h ≥ 2000 then
    some "Old Mid-Caps"
  else if n.liquidity ≥ 200000 ∧ n.fdv ≥ 1000000 ∧ n.volume6h ≥ 150000 then
    some "Larger Mid Caps"
  else none

/-- The body of v6 `categorize_token`'s `try` block: parse, run the guards,
and if no guard rejected, walk the tier ladder. -/
def categorize_body (cfg : Config) (rug : String → Bool) (t : Token) : Except Unit (Option String) :=
  eBind (parse_nums t) fun n =>
    eBind (categorize_checks cfg rug t) fun ok =>
      if ok then .ok (tier_of n) else .ok none

/-- v6 `categorize_token`: the `except` clause turns any raised error into
`None`. -/
def categorize_token (cfg : Config) (rug : String → Bool) (t : Token) : Option String :=
  match categorize_body cfg rug t with
  | .ok c => c
  | .error _ => none

-- ---------------------------------------------------------------------
-- Scoring (v6 lines 174-198; v5 lines 105-121 agrees)
-- ---------------------------------------------------------------------

/-- Configuration constants of v6 (lines 39-52). -/
def RISK_AMOUNT : ℚ := 10

/-- v6 line 44: only tokens scoring at least this are considered. -/
def MIN_SCORE_THRESHOLD : ℚ := 2

/-- The body of v6 `score_token`'s `try` block (lines 179-183):
`market_cap` is `float(token.get("marketCapUsd", token.get("fdvUsd", 0)) or 0)`. -/
def score_body (t : Token) : Except Unit ℚ :=
  eBind (pyFloat (if truthy (t.marketCapUsd.getD (getD0 t.fdvUsd)) then
      t.marketCapUsd.getD (getD0 t.fdvUsd) else .num 0)) fun market_cap =>
    eBind (pyFloat (getD0 t.liquidityUsd)) fun liquidity =>
      eBind (pyFloat (getD0 t.volumeUsd24Hr)) fun volume24h =>
        .ok (market_cap / 100000 + liquidity / 50000 + volume24h / 1000000)

/-- v6 `score_token`: the `except` clause turns any raised error into 0. -/
def score_token (t : Token) : ℚ :=
  match score_body t with
  | .ok s => s
  | .error _ => 0

/-- v6 `filter_tokens`: keep the tokens scoring at least `min_score`. -/
def filter_tokens (tokens : List Token) (min_score : ℚ) : List Token :=
  tokens.filter fun t => decide (score_token t ≥ min_score)

-- ---------------------------------------------------------------------
-- Additional risk checks (v5 lines 235-263)
-- ---------------------------------------------------------------------

/-- The body of v5 `advanced_rug_pull_check`'s `try` block: market-cap
floor, then volume floor, then price floor, each `float` parse occurring
at its source position. `True` means the token is rejected as risky. -/
def advanced_body (t : Token) : Except Unit Bool :=
  eBind (if truthy (t.marketCapUsd.getD (getD0 t.fdvUsd)) then
      pyFloat (t.marketCapUsd.getD (getD0 t.fdvUsd)) else .ok 0) fun market_cap =>
    if market_cap < 100000 then .ok true
    else
      eBind (pyFloat (getD0 t.volumeUsd24Hr)) fun volume =>
        if volume < 1000 then .ok true
        else
          eBind (pyFloat (getD0 t.priceUsd)) fun price =>
            if price < 1/10000 then .ok true
            else .ok false

/-- v5 `advanced_rug_pull_check`: the `except` clause treats any raised
error as high risk (`True`), the fail-safe direction. -/
def advanced_rug_pull_check (t : Token) : Bool :=
  match advanced_body t with
  | .ok b => b
  | .error _ => true

-- ---------------------------------------------------------------------
-- Composite eligibility (spec 4.1 as realized by the code pieces)
-- ---------------------------------------------------------------------

/-- Whether the guard section of `categorize_token` passes (no rejection
and no raised error). -/
def hard_pass (cfg : Config) (rug : String → Bool) (t : Token) : Bool :=
  match categorize_checks cfg rug t with
  | .ok b => b
  | .error _ => false

/-- The spec's eligibility: the hard checks of `categorize_token`
(blacklists, supply, volume, rug status) pass and
`advanced_rug_pull_check` does not flag the token — the exact conjunction
v6 `buy_token` requires besides the tier and the score. -/
def eligible (cfg : Config) (rug : String → Bool) (t : Token) : Bool :=
  hard_pass cfg rug t && !(advanced_rug_pull_check t)

/-- The reject reasons of spec 4.1, plus `evalError` for a rejection
caused by a raised parse error. -/
inductive Reason where
  | blacklisted
  | bundledSupply
  | noVolume
  | rugFailed
  | mcapFloor
  | lowVolume
  | dustPrice
  | evalError
deriving DecidableEq, Repr

/-- The rejection cascade of the guard section of v6 `categorize_token`
(lines 136-149), with one reason per reject site, in evaluation order: the
parses, then the two guard statements, whose `or`s short-circuit left to
right. A raised parse error rejects via the `try/except` and is recorded
as `evalError`. -/
def hard_reject_reason (cfg : Config) (rug : String → Bool) (t : Token) : Option Reason :=
  match parse_nums t with
  | .error _ => some .evalError
  | .ok _ =>
    if coin_in_blacklist cfg t || dev_in_blacklist cfg t then some .blacklisted
    else if !(check_supply t) then some .bundledSupply
    else
      match verify_volume t with
      | .error _ => some .evalError
      | .ok vv =>
        if !vv then some .noVolume
        else if !(check_rug_status rug (t.tokenAddress.getD "")) then some .rugFailed
        else none

/-- The rejection cascade of v5 `advanced_rug_pull_check` (lines 240-259),
with one reason per reject site, in evaluation order — market cap, volume,
price — each `float` parse occurring at its source position, a raised
error recorded as `evalError`. -/
def adv_reject_reason (t : Token) : Option Reason :=
  match (if truthy (t.marketCapUsd.getD (getD0 t.fdvUsd)) then
      pyFloat (t.marketCapUsd.getD (getD0 t.fdvUsd)) else .ok 0) with
  | .error _ => some .evalError
  | .ok market_cap =>
    if market_cap < 100000 then some .mcapFloor
    else
      match pyFloat (getD0 t.volumeUsd24Hr) with
      | .error _ => some .evalError
      | .ok volume =>
        if volume < 1000 then some .lowVolume
        else
          match pyFloat (getD0 t.priceUsd) with
          | .error _ => some .evalError
          | .ok price =>
            if price < 1/10000 then some .dustPrice
            else none

/-- The full rejection cascade the code runs, in evaluation order: the
guard section of v6 `categorize_token`, then v5
`advanced_rug_pull_check` as wired after it by v6 `buy_token`. -/
def code_reject_reason (cfg : Config) (rug : String → Bool) (t : Token) : Option Reason :=
  match hard_reject_reason cfg rug t with
  | some r => some r
  | none => adv_reject_reason t

-- ---------------------------------------------------------------------
-- Spec-side definitions (written from the spec's words, for comparison)
-- ---------------------------------------------------------------------

/-- Spec threshold: minimum market cap (code literal 100000 in v5). -/
def MIN_MARKET_CAP : ℚ := 100000

/-- Spec threshold: minimum 24h volume (code literal 1000 in v5). -/
def MIN_VOLUME : ℚ := 1000

/-- Spec threshold: minimum price (code literal 0.0001 in v5). -/
def MIN_PRICE : ℚ := 1/10000

/-- The record's market cap per the spec data model: `marketCapUsd`,
falling back to `fdvUsd` only when the key is absent, 0 when both are. -/
def mcVal (t : Token) : ℚ :=
  match t.marketCapUsd with
  | some v => numD0 (some v)
  | none => numD0 t.fdvUsd

/-- Modelled from the spec's words (claim C1): the seven rejection checks
applied in the stated fixed order, first match wins; defined over
normalized records via the total field readers. -/
def specRejectReason (cfg : Config) (rug : String → Bool) (t : Token) : Option Reason :=
  if coin_in_blacklist cfg t || dev_in_blacklist cfg t then some .blacklisted
  else if truthy (t.supplyBundled.getD (.pybool false)) then some .bundledSupply
  else if numD0 t.volumeUsd24Hr ≤ 0 then some .noVolume
  else if !(rug (t.tokenAddress.getD "")) then some .rugFailed
  else if mcVal t < MIN_MARKET_CAP then some .mcapFloor
  else if numD0 t.volumeUsd24Hr < MIN_VOLUME then some .lowVolume
  else if numD0 t.priceUsd < MIN_PRICE then some .dustPrice
  else none

/-- The VeryDegen tier predicate (spec 4.1 table, first row). -/
abbrev vd_pred (n : Nums) : Prop :=
  n.liquidity ≥ 10000 ∧ n.fdv ≥ 100000 ∧ 0 ≤ n.pair_age ∧ n.pair_age ≤ 48 ∧ n.txns1h ≥ 30

/-- The Degen tier predicate (spec 4.1 table, second row). -/
abbrev degen_pred (n : Nums) : Prop :=
  n.liquidity ≥ 15000 ∧ n.fdv ≥ 100000 ∧ 1 ≤ n.pair_age ∧ n.pair_age ≤ 72 ∧ n.txns1h ≥ 100

/-- The MidCap tier predicate (spec 4.1 table, third row). -/
abbrev midcap_pred (n : Nums) : Prop :=
  n.liquidity ≥ 100000 ∧ n.fdv ≥ 1000000 ∧ n.volume24h ≥ 1200000 ∧ n.txns24h ≥ 30

/-- The OldMidCap tier predicate (spec 4.1 table, fourth row). -/
abbrev oldmid_pred (n : Nums) : Prop :=
  n.liquidity ≥ 100000 ∧ n.fdv ≥ 200000 ∧ n.fdv ≤ 100000000 ∧ 720 ≤ n.pair_age ∧ n.pair_age ≤ 2800 ∧ n.volume24h ≥ 200000 ∧ n.txns24h ≥ 2000

/-- The LargerMidCap tier predicate (spec 4.1 table, fifth row). -/
abbrev largermid_pred (n : Nums) : Prop :=
  n.liquidity ≥ 200000 ∧ n.fdv ≥ 1000000 ∧ n.volume6h ≥ 150000

/-- Modelled from the spec's words (claim C2): the tier predicates tested
in the fixed priority order, first match wins, `none` when no tier
matches. -/
def spec_tier_priority (n : Nums) : Option String :=
  if vd_pred n then some "Very Degen"
  else if degen_pred n then some "Degen"
  else if midcap_pred n then some "Mid-Caps"
  else if oldmid_pred n then some "Old Mid-Caps"
  else if largermid_pred n then some "Larger Mid Caps"
  else none

/-- Modelled from the spec's words (claim C3): the score formula over the
four fields it reads, missing fields read as 0, `marketCapUsd` falling
back to `fdvUsd` only when absent. -/
def spec_score (mc fdv liq v24 : Option ℚ) : ℚ :=
  (match mc with
   | some q => q
   | none => fdv.getD 0) / 100000 + liq.getD 0 / 50000 + v24.getD 0 / 1000000

-- ---------------------------------------------------------------------
-- Trade execution (v6 lines 203-256)
-- ---------------------------------------------------------------------

/-- An open position as built by v6 `buy_token` (line 245): the full token
record is stored inside the position dictionary. -/
structure Position where
  token : Token
  buy_price : ℚ
  quantity : ℚ
deriving DecidableEq, Repr

/-- v6 `buy_token` (lines 221-245). `tradeOk` is the truthiness of
`execute_trade`'s result: in simulation mode the fixed price 0.1 (truthy),
in real mode the transaction response of the external gateway — in either
mode the buy price recorded is the constant 0.1 (line 241). The first
component records whether `execute_trade(..., "buy", ...)` was reached,
i.e. whether the Trade-Open operation was invoked. -/
def buy_token_aux (cfg : Config) (rug : String → Bool) (tradeOk : Bool) (t : Token) :
    Bool × Option Position :=
  let category := categorize_token cfg rug t
  let token_score := score_token t
  if category = none ∨ token_score < MIN_SCORE_THRESHOLD ∨ advanced_rug_pull_check t = true then
    (false, none)
  else
    let token_address := t.tokenAddress.getD ""
    if token_address = "" then (false, none)
    else if tradeOk then
      let buy_price : ℚ := 1/10
      (true, some { token := t, buy_price := buy_price, quantity := RISK_AMOUNT / buy_price })
    else (true, none)

/-- v6 `buy_token`'s return value: the opened position, or `None`. -/
def buy_token (cfg : Config) (rug : String → Bool) (tradeOk : Bool) (t : Token) :
    Option Position :=
  (buy_token_aux cfg rug tradeOk t).2

-- ---------------------------------------------------------------------
-- Position monitor (v6 lines 258-290; v1 lines 135-167 identical logic)
-- ---------------------------------------------------------------------

/-- The monitor states of spec 4.4. The source closes a position only via
the profit branch or the stop-loss branch. -/
inductive PosState where
  | Open
  | Closed_Profit
  | Closed_StopLoss
  | Closed_Error
deriving DecidableEq, Repr

/-- One decision of v6 `monitor_position` on an observed current price:
`target_price = buy_price * PROFIT_TARGET_MULTIPLIER` and
`stop_loss_price = buy_price * STOP_LOSS_RATIO` are computed up front
(lines 263-264); the profit comparison (line 282) runs before the
stop-loss comparison (line 286), and neither firing leaves the position
open for the next poll. The multiplier and the ratio are the module
configuration constants, passed as `mult` and `sl`. -/
def monitor_step (mult sl buy_price current_price : ℚ) : PosState :=
  if current_price ≥ buy_price * mult then .Closed_Profit
  else if current_price ≤ buy_price * sl then .Closed_StopLoss
  else .Open

-- ---------------------------------------------------------------------
-- Token discovery: fetch (v6 lines 295-314)
-- ---------------------------------------------------------------------

/-- The JSON body of a feed response as far as `fetch_tokens` inspects it:
a bare array of token records, an object (a key/value list), or any other
JSON value. -/
inductive JsonVal where
  | arr : List Token → JsonVal
  | obj : List (String × JsonVal) → JsonVal
  | prim : JsonVal

/-- `dict.get` on a parsed JSON object. -/
def jlookup (key : String) : List (String × JsonVal) → Option JsonVal
  | [] => none
  | (k, v) :: rest => if k = key then some v else jlookup key rest

/-- v6 `fetch_tokens`: the argument is the outcome of
`requests.get(...).json()` — `Except.error` when the request or the JSON
parse raised. A bare list is returned as is; an object yields its `data`
field (default `[]`); anything else yields `[]`; any raised error is
caught and yields `[]`. Total: no exception propagates to the caller. -/
def fetch_tokens (resp : Except Unit JsonVal) : JsonVal :=
  match resp with
  | .error _ => .arr []
  | .ok (.arr l) => .arr l
  | .ok (.obj kvs) => (jlookup "data" kvs).getD (.arr [])
  | .ok .prim => .arr []

/-- Modelled from the spec's words (claim C8): return the list itself for
a bare list body, the `data` field's value for an object body (the empty
list when absent), and the empty list for any other shape or failure. -/
def spec_fetch (resp : Except Unit JsonVal) : JsonVal :=
  match resp with
  | .ok (.arr l) => .arr l
  | .ok (.obj kvs) =>
    match jlookup "data" kvs with
    | some v => v
    | none => .arr []
  | _ => .arr []

-- ---------------------------------------------------------------------
-- Main discovery loop, one tick (v6 lines 319-342)
-- ---------------------------------------------------------------------

/-- Python `a or b` for optional strings: `None` and `""` are falsy.
`sym = token.get("symbol") or token.get("tokenAddress") or "Unknown"`. -/
def orStr (o : Option String) (d : String) : String :=
  match o with
  | some s => if s = "" then d else s
  | none => d

/-- The dedup key v6 `main` uses (line 327): the symbol, falling back to
the token address, then to `"Unknown"`. -/
def symOf (t : Token) : String :=
  orStr t.symbol (orStr t.tokenAddress "Unknown")

/-- The observable outcome of one pass of v6 `main` over a fetched list:
the discovered-key set (insertion order), the positions opened, and the
tokens the loop body applied `categorize_token` to. -/
structure TickRes where
  discovered : List String
  buys : List Position
  evald : List Token
deriving DecidableEq, Repr

/-- The loop body of v6 `main` (lines 326-339) for one token of
`good_tokens`: `categorize_token` runs first (line 328), before the
membership test on `discovered` (line 331), so it is recorded in `evald`
unconditionally; a new key is added and `buy_token` is called only when
the category is not `None` and the key is unseen. -/
def tick_fold (cfg : Config) (rug : String → Bool) (tradeOk : Bool)
    (st : TickRes) (t : Token) : TickRes :=
  let sym := symOf t
  let category := categorize_token cfg rug t
  let st1 : TickRes := { st with evald := st.evald ++ [t] }
  if category = none then st1
  else if sym ∈ st1.discovered then st1
  else
    let st2 : TickRes := { st1 with discovered := st1.discovered ++ [sym] }
    match buy_token cfg rug tradeOk t with
    | some p => { st2 with buys := st2.buys ++ [p] }
    | none => st2

/-- One pass of v6 `main` (lines 323-339) over a fetched token list,
starting from the discovered set `d`: `filter_tokens` applies
`score_token` to every fetched token, and the loop body runs on each
token that passed the score filter. -/
def discovery_tick (cfg : Config) (rug : String → Bool) (tradeOk : Bool)
    (d : List String) (tokens : List Token) : TickRes :=
  (filter_tokens tokens MIN_SCORE_THRESHOLD).foldl (tick_fold cfg rug tradeOk) ⟨d, [], []⟩

-- ---------------------------------------------------------------------
-- Field badness (for the fail-safe claim)
-- ---------------------------------------------------------------------

/-- A present field value on which `float()` raises. -/
def isBadV (v : PyVal) : Bool :=
  match pyFloat v with
  | .error _ => true
  | .ok _ => false

/-- An optional field that makes `float(token.get(key, 0))` raise:
present and unparseable. -/
def isBadF (o : Option PyVal) : Bool := isBadV (getD0 o)

/-- A value that makes `float(x) if x else 0` (equally `float(x or 0)`)
raise: truthy and unparseable. -/
def badTruthy (v : PyVal) : Bool := truthy v && isBadV v

/-- Some field parsed by v6 `categorize_token` raises. -/
def catAnyBad (t : Token) : Bool :=
  isBadF t.liquidityUsd || badTruthy (t.fdvUsd.getD (getD0 t.marketCapUsd)) ||
  isBadF t.pairAgeHours || isBadF t.txns1h || isBadF t.txns24h ||
  isBadF t.volumeUsd24Hr || isBadF t.volumeUsd6h

/-- Some field parsed by v6 `score_token` raises. -/
def scoreAnyBad (t : Token) : Bool :=
  badTruthy (t.marketCapUsd.getD (getD0 t.fdvUsd)) ||
  isBadF t.liquidityUsd || isBadF t.volumeUsd24Hr

/-- Some field parsed by v5 `advanced_rug_pull_check` raises. -/
def advAnyBad (t : Token) : Bool :=
  badTruthy (t.marketCapUsd.getD (getD0 t.fdvUsd)) ||
  isBadF t.volumeUsd24Hr || isBadF t.priceUsd

/-- All numeric fields of the record are absent. -/
def allNumericMissing (t : Token) : Prop :=
  t.liquidityUsd = none ∧ t.fdvUsd = none ∧ t.marketCapUsd = none ∧
  t.pairAgeHours = none ∧ t.txns1h = none ∧ t.txns24h = none ∧
  t.volumeUsd24Hr = none ∧ t.volumeUsd6h = none ∧ t.priceUsd = none

instance (t : Token) : Decidable (allNumericMissing t) := by
  unfold allNumericMissing
  infer_instance

-- ---------------------------------------------------------------------
-- Concrete sample inputs (used to instantiate the theorems below)
-- ---------------------------------------------------------------------

/-- An empty blacklist configuration. -/
def cfg0 : Config := ⟨[], []⟩

/-- The rug-status collaborator of the v6 source: always passing. -/
def rugT : String → Bool := fun _ => true

/-- An eligible VeryDegen record: address A, symbol X, liquidity 15000,
fdv 100000, market cap 200000, pair age 1h, 100 txns in 1h, 24h volume
1000, price 1. -/
def tokVD : Token :=
  mkNumToken (some "A") none (some "X") none (some 15000) (some 100000)
    (some 200000) (some 1) (some 100) (some 0) (some 1000) (some 0) (some 1)

/-- The same record as `tokVD` but under symbol Y (same address A). -/
def tokVD2 : Token :=
  mkNumToken (some "A") none (some "Y") none (some 15000) (some 100000)
    (some 200000) (some 1) (some 100) (some 0) (some 1000) (some 0) (some 1)

/-- The same record as `tokVD` but with no token address. -/
def tokNoAddr : Token :=
  mkNumToken none none (some "X") none (some 15000) (some 100000)
    (some 200000) (some 1) (some 100) (some 0) (some 1000) (some 0) (some 1)

/-- The same record as `tokVD` but with a dust price (1/20000 < 0.0001):
the two records differ only in the `priceUsd` field. -/
def tokDust : Token :=
  mkNumToken (some "A") none (some "X") none (some 15000) (some 100000)
    (some 200000) (some 1) (some 100) (some 0) (some 1000) (some 0)
    (some (1/20000))

/-- A record whose liquidity, market cap and price are non-numeric
strings (Python `float` raises on them). -/
def tokBad : Token :=
  { liquidityUsd := some (.str "oops" none)
    marketCapUsd := some (.str "oops" none)
    priceUsd := some (.str "oops" none) }

/-- A record with every field absent. -/
def tokEmpty : Token := {}

-- ---------------------------------------------------------------------
-- Helper lemmas
-- ---------------------------------------------------------------------

@[simp] theorem eBind_ok {α β : Type} (a : α) (f : α → Except Unit β) :
    eBind (.ok a) f = f a := rfl

@[simp] theorem eBind_error {α β : Type} (f : α → Except Unit β) :
    eBind (.error ()) f = .error () := rfl

@[simp] theorem pyFloat_num (q : ℚ) : pyFloat (.num q) = .ok q := rfl

@[simp] theorem truthy_num (q : ℚ) : truthy (.num q) = decide (q ≠ 0) := rfl

@[simp] theorem getD0_mapNum (o : Option ℚ) :
    getD0 (o.map PyVal.num) = PyVal.num (o.getD 0) := by
  cases o <;> rfl

@[simp] theorem numD0_mapNum (o : Option ℚ) :
    numD0 (o.map PyVal.num) = o.getD 0 := by
  cases o <;> rfl

theorem mapNum_getD (o₁ o₂ : Option ℚ) :
    (o₁.map PyVal.num).getD (getD0 (o₂.map PyVal.num)) = PyVal.num (o₁.getD (o₂.getD 0)) := by
  cases o₁ <;> cases o₂ <;> rfl

theorem float_if_truthy_num (q : ℚ) :
    (if truthy (PyVal.num q) then pyFloat (PyVal.num q) else .ok 0) = Except.ok q := by
  by_cases h : q = 0 <;> simp [h]

theorem pyFloat_if_truthy_num (q : ℚ) :
    pyFloat (if truthy (PyVal.num q) then PyVal.num q else .num 0) = Except.ok q := by
  by_cases h : q = 0 <;> simp [h]

theorem truthy_mapBool (b : Option Bool) :
    truthy ((b.map PyVal.pybool).getD (.pybool false)) = b.getD false := by
  cases b <;> rfl

theorem parse_nums_mk (addr dev sym : Option String) (bundled : Option Bool)
    (liq fdv mc age t1 t24 v24 v6 price : Option ℚ) :
    parse_nums (mkNumToken addr dev sym bundled liq fdv mc age t1 t24 v24 v6 price) =
      .ok ⟨liq.getD 0, fdv.getD (mc.getD 0), age.getD 0, t1.getD 0, t24.getD 0,
           v24.getD 0, v6.getD 0⟩ := by
  unfold parse_nums mkNumToken
  simp [mapNum_getD, float_if_truthy_num]
  by_cases h : fdv.getD (mc.getD 0) = 0 <;> simp [h]

theorem verify_volume_mk (addr dev sym : Option String) (bundled : Option Bool)
    (liq fdv mc age t1 t24 v24 v6 price : Option ℚ) :
    verify_volume (mkNumToken addr dev sym bundled liq fdv mc age t1 t24 v24 v6 price) =
      .ok (decide (v24.getD 0 > 0)) := by
  unfold verify_volume mkNumToken
  simp

theorem mcVal_mk (addr dev sym : Option String) (bundled : Option Bool)
    (liq fdv mc age t1 t24 v24 v6 price : Option ℚ) :
    mcVal (mkNumToken addr dev sym bundled liq fdv mc age t1 t24 v24 v6 price) =
      mc.getD (fdv.getD 0) := by
  unfold mcVal mkNumToken
  cases mc <;> cases fdv <;> simp [numD0]

/-- The guard section of `categorize_token` passes exactly when no hard
reject site fires. -/
theorem hard_pass_iff_none (cfg : Config) (rug : String → Bool) (t : Token) :
    hard_pass cfg rug t = true ↔ hard_reject_reason cfg rug t = none := by
  unfold hard_pass categorize_checks hard_reject_reason
  cases hp : parse_nums t with
  | error e => cases e; simp
  | ok n =>
    simp only [eBind_ok]
    by_cases hcb : coin_in_blacklist cfg t = true <;>
      by_cases hdb : dev_in_blacklist cfg t = true <;>
        by_cases hsu : check_supply t = true <;>
          simp only [hcb, hdb, hsu, Bool.false_or, Bool.true_or, Bool.or_false,
            Bool.or_true, Bool.not_true, Bool.not_false, if_true, if_false] <;>
      try simp
    all_goals {
      cases hv : verify_volume t with
      | error e => cases e; simp
      | ok vv =>
        cases vv <;>
          by_cases hr : check_rug_status rug (t.tokenAddress.getD "") = true <;>
            simp_all
    }

/-- `advanced_rug_pull_check` passes exactly when none of its reject
sites fires. -/
theorem adv_false_iff_none (t : Token) :
    advanced_rug_pull_check t = false ↔ adv_reject_reason t = none := by
  unfold advanced_rug_pull_check advanced_body adv_reject_reason
  cases hm : (if truthy (t.marketCapUsd.getD (getD0 t.fdvUsd)) then
      pyFloat (t.marketCapUsd.getD (getD0 t.fdvUsd)) else Except.ok 0) with
  | error e => cases e; simp
  | ok market_cap =>
    by_cases h5 : market_cap < 100000
    · simp [h5]
    · simp only [eBind_ok, if_neg h5]
      cases hvol : pyFloat (getD0 t.volumeUsd24Hr) with
      | error e => cases e; simp
      | ok volume =>
        by_cases h6 : volume < 1000
        · simp [h6]
        · simp only [eBind_ok, if_neg h6]
          cases hpr : pyFloat (getD0 t.priceUsd) with
          | error e => cases e; simp
          | ok price =>
            by_cases h7 : price < 1/10000
            · rw [one_div] at h7
              simp [h7, not_le.mpr h7]
            · rw [one_div] at h7
              simp [if_neg h7, not_lt.mp h7]

/-- The composite eligibility decision agrees with the rejection cascade:
a token is eligible exactly when no reject site (and no parse error)
fires. -/
theorem eligible_iff_reject_none (cfg : Config) (rug : String → Bool) (t : Token) :
    eligible cfg rug t = true ↔ code_reject_reason cfg rug t = none := by
  unfold eligible code_reject_reason
  cases hh : hard_reject_reason cfg rug t with
  | some r =>
    have hfa : ¬ hard_pass cfg rug t = true := by
      intro hcon
      rw [(hard_pass_iff_none cfg rug t).1 hcon] at hh
      exact Option.noConfusion hh
    simp [Bool.eq_false_iff.mpr hfa]
  | none =>
    have h1 : hard_pass cfg rug t = true := (hard_pass_iff_none cfg rug t).2 hh
    simp only [h1, Bool.true_and]
    rw [Bool.not_eq_true']
    exact adv_false_iff_none t

theorem mk_tokenAddress (addr dev sym : Option String) (bundled : Option Bool)
    (liq fdv mc age t1 t24 v24 v6 price : Option ℚ) :
    (mkNumToken addr dev sym bundled liq fdv mc age t1 t24 v24 v6 price).tokenAddress = addr := rfl

theorem mk_supplyBundled (addr dev sym : Option String) (bundled : Option Bool)
    (liq fdv mc age t1 t24 v24 v6 price : Option ℚ) :
    (mkNumToken addr dev sym bundled liq fdv mc age t1 t24 v24 v6 price).supplyBundled =
      bundled.map PyVal.pybool := rfl

theorem mk_marketCapUsd (addr dev sym : Option String) (bundled : Option Bool)
    (liq fdv mc age t1 t24 v24 v6 price : Option ℚ) :
    (mkNumToken addr dev sym bundled liq fdv mc age t1 t24 v24 v6 price).marketCapUsd =
      mc.map PyVal.num := rfl

theorem mk_fdvUsd (addr dev sym : Option String) (bundled : Option Bool)
    (liq fdv mc age t1 t24 v24 v6 price : Option ℚ) :
    (mkNumToken addr dev sym bundled liq fdv mc age t1 t24 v24 v6 price).fdvUsd =
      fdv.map PyVal.num := rfl

theorem mk_volumeUsd24Hr (addr dev sym : Option String) (bundled : Option Bool)
    (liq fdv mc age t1 t24 v24 v6 price : Option ℚ) :
    (mkNumToken addr dev sym bundled liq fdv mc age t1 t24 v24 v6 price).volumeUsd24Hr =
      v24.map PyVal.num := rfl

theorem mk_priceUsd (addr dev sym : Option String) (bundled : Option Bool)
    (liq fdv mc age t1 t24 v24 v6 price : Option ℚ) :
    (mkNumToken addr dev sym bundled liq fdv mc age t1 t24 v24 v6 price).priceUsd =
      price.map PyVal.num := rfl

theorem mapNum_getD2 (o : Option ℚ) (q : ℚ) :
    (o.map PyVal.num).getD (PyVal.num q) = PyVal.num (o.getD q) := by
  cases o <;> rfl

theorem ok_if_zero (q : ℚ) :
    (if q = 0 then Except.ok 0 else Except.ok q) = (Except.ok q : Except Unit ℚ) := by
  by_cases h : q = 0 <;> simp [h]

theorem ok_if_truthy_num (q : ℚ) :
    (if truthy (PyVal.num q) = true then Except.ok q else Except.ok 0) =
      (Except.ok q : Except Unit ℚ) := by
  by_cases h : q = 0 <;> simp [truthy, h]

/-- Claim C1: on every normalized token record and blacklist configuration
(and any outcome of the external rug-status collaborator), the rejection
cascade the code runs — `categorize_token`'s guards followed by
`advanced_rug_pull_check` — produces exactly the first matching check of
the spec's fixed order (1) blacklists, (2) supplyBundled, (3)
volumeUsd24h ≤ 0, (4) rug-status failure, (5) market cap below
MIN_MARKET_CAP, (6) volume below MIN_VOLUME, (7) price below MIN_PRICE;
and the token is eligible iff no check matches. -/
theorem C1_rejection_order (cfg : Config) (rug : String → Bool)
    (addr dev sym : Option String) (bundled : Option Bool)
    (liq fdv mc age t1 t24 v24 v6 price : Option ℚ) :
    code_reject_reason cfg rug (mkNumToken addr dev sym bundled liq fdv mc age t1 t24 v24 v6 price) =
      specRejectReason cfg rug (mkNumToken addr dev sym bundled liq fdv mc age t1 t24 v24 v6 price) ∧
    (eligible cfg rug (mkNumToken addr dev sym bundled liq fdv mc age t1 t24 v24 v6 price) = true ↔
      specRejectReason cfg rug (mkNumToken addr dev sym bundled liq fdv mc age t1 t24 v24 v6 price) = none) := by
  have hmain : code_reject_reason cfg rug (mkNumToken addr dev sym bundled liq fdv mc age t1 t24 v24 v6 price) =
      specRejectReason cfg rug (mkNumToken addr dev sym bundled liq fdv mc age t1 t24 v24 v6 price) := by
    unfold code_reject_reason hard_reject_reason adv_reject_reason specRejectReason
    simp only [parse_nums_mk, verify_volume_mk, mk_tokenAddress, mk_supplyBundled,
      mk_marketCapUsd, mk_fdvUsd, mk_volumeUsd24Hr, mk_priceUsd, check_supply,
      check_rug_status, truthy_mapBool, numD0_mapNum, mapNum_getD, mapNum_getD2,
      float_if_truthy_num, getD0_mapNum, pyFloat_num, ok_if_zero, Bool.not_not,
      MIN_MARKET_CAP, MIN_VOLUME, MIN_PRICE]
    rw [ok_if_truthy_num, mcVal_mk]
    split_ifs <;> simp_all
  refine ⟨hmain, ?_⟩
  rw [← hmain]
  exact eligible_iff_reject_none cfg rug (mkNumToken addr dev sym bundled liq fdv mc age t1 t24 v24 v6 price)

/-- Claim C2: for every token record passing all rejection checks, the
category is the first matching tier of the fixed priority order VeryDegen,
Degen, MidCap, OldMidCap, LargerMidCap; a token satisfying both the
VeryDegen and the Degen predicates is categorized Very Degen, and a token
matching no tier gets category None. -/
theorem C2_tier_priority (cfg : Config) (rug : String → Bool) (t : Token) (n : Nums)
    (hp : parse_nums t = .ok n) (he : eligible cfg rug t = true) :
    categorize_token cfg rug t = spec_tier_priority n ∧
    (vd_pred n ∧ degen_pred n → categorize_token cfg rug t = some "Very Degen") ∧
    ((¬ vd_pred n ∧ ¬ degen_pred n ∧ ¬ midcap_pred n ∧ ¬ oldmid_pred n ∧
      ¬ largermid_pred n) → categorize_token cfg rug t = none) := by
  have hpass : hard_pass cfg rug t = true := by
    unfold eligible at he
    cases hh : hard_pass cfg rug t
    · rw [hh] at he; simp at he
    · rfl
  have hchecks : categorize_checks cfg rug t = Except.ok true := by
    unfold hard_pass at hpass
    cases hc : categorize_checks cfg rug t with
    | error e => rw [hc] at hpass; simp at hpass
    | ok b => rw [hc] at hpass; simp at hpass; rw [hpass]
  have hcat : categorize_token cfg rug t = tier_of n := by
    unfold categorize_token categorize_body
    rw [hp]
    simp only [eBind_ok]
    rw [hchecks]
    simp
  have htier : tier_of n = spec_tier_priority n := rfl
  refine ⟨by rw [hcat, htier], ?_, ?_⟩
  · rintro ⟨hvd, _⟩
    rw [hcat]
    unfold tier_of
    rw [if_pos hvd]
  · rintro ⟨h1, h2, h3, h4, h5⟩
    rw [hcat]
    unfold tier_of
    rw [if_neg h1, if_neg h2, if_neg h3, if_neg h4, if_neg h5]

-- Evaluation lemmas on normalized records (ℚ division blocks kernel
-- reduction, so concrete instances are evaluated through these).

theorem mk_liquidityUsd (addr dev sym : Option String) (bundled : Option Bool)
    (liq fdv mc age t1 t24 v24 v6 price : Option ℚ) :
    (mkNumToken addr dev sym bundled liq fdv mc age t1 t24 v24 v6 price).liquidityUsd =
      liq.map PyVal.num := rfl

theorem score_token_mk (addr dev sym : Option String) (bundled : Option Bool)
    (liq fdv mc age t1 t24 v24 v6 price : Option ℚ) :
    score_token (mkNumToken addr dev sym bundled liq fdv mc age t1 t24 v24 v6 price) =
      (mc.getD (fdv.getD 0)) / 100000 + liq.getD 0 / 50000 + v24.getD 0 / 1000000 := by
  unfold score_token score_body
  simp only [mk_marketCapUsd, mk_fdvUsd, mk_liquidityUsd, mk_volumeUsd24Hr,
    getD0_mapNum, mapNum_getD, mapNum_getD2, pyFloat_if_truthy_num, pyFloat_num,
    eBind_ok]

theorem advanced_mk (addr dev sym : Option String) (bundled : Option Bool)
    (liq fdv mc age t1 t24 v24 v6 price : Option ℚ) :
    advanced_rug_pull_check (mkNumToken addr dev sym bundled liq fdv mc age t1 t24 v24 v6 price) =
      (decide (mc.getD (fdv.getD 0) < 100000) || decide (v24.getD 0 < 1000) ||
        decide (price.getD 0 < 1/10000)) := by
  unfold advanced_rug_pull_check advanced_body
  simp only [mk_marketCapUsd, mk_fdvUsd, mk_volumeUsd24Hr, mk_priceUsd,
    getD0_mapNum, mapNum_getD, mapNum_getD2, float_if_truthy_num,
    ok_if_truthy_num, ok_if_zero, pyFloat_num, eBind_ok]
  by_cases h5 : mc.getD (fdv.getD 0) < 100000
  · simp [h5]
  · simp only [if_neg h5, h5, decide_eq_true_eq]
    by_cases h6 : v24.getD 0 < 1000
    · simp [h6]
    · simp only [if_neg h6, h6, decide_eq_true_eq]
      by_cases h7 : price.getD 0 < (10000 : ℚ)⁻¹
      · simp [h7]
      · simp [if_neg h7, h7]

theorem hard_pass_mk (cfg : Config) (rug : String → Bool)
    (addr dev sym : Option String) (bundled : Option Bool)
    (liq fdv mc age t1 t24 v24 v6 price : Option ℚ) :
    hard_pass cfg rug (mkNumToken addr dev sym bundled liq fdv mc age t1 t24 v24 v6 price) =
      (!(coin_in_blacklist cfg (mkNumToken addr dev sym bundled liq fdv mc age t1 t24 v24 v6 price) ||
         dev_in_blacklist cfg (mkNumToken addr dev sym bundled liq fdv mc age t1 t24 v24 v6 price) ||
         bundled.getD false) &&
       (decide (v24.getD 0 > 0) && rug (addr.getD ""))) := by
  unfold hard_pass categorize_checks
  simp only [parse_nums_mk, verify_volume_mk, mk_tokenAddress, mk_supplyBundled,
    check_supply, check_rug_status, truthy_mapBool, Bool.not_not, eBind_ok]
  by_cases h1 : (coin_in_blacklist cfg (mkNumToken addr dev sym bundled liq fdv mc age t1 t24 v24 v6 price) ||
      dev_in_blacklist cfg (mkNumToken addr dev sym bundled liq fdv mc age t1 t24 v24 v6 price) ||
      bundled.getD false) = true
  · simp [h1]
  · simp only [h1, Bool.false_eq_true, if_false, Bool.not_eq_true] at *
    simp only [h1, Bool.not_false, Bool.true_and]
    by_cases h2 : v24.getD 0 > 0
    · simp only [h2, decide_True, Bool.not_true, Bool.false_or, Bool.true_and]
      by_cases h3 : rug (addr.getD "") = true
      · simp [h3]
      · simp only [Bool.not_eq_true] at h3
        simp [h3]
    · simp [h2]

theorem categorize_token_mk (cfg : Config) (rug : String → Bool)
    (addr dev sym : Option String) (bundled : Option Bool)
    (liq fdv mc age t1 t24 v24 v6 price : Option ℚ) :
    categorize_token cfg rug (mkNumToken addr dev sym bundled liq fdv mc age t1 t24 v24 v6 price) =
      (if hard_pass cfg rug (mkNumToken addr dev sym bundled liq fdv mc age t1 t24 v24 v6 price) = true then
        tier_of ⟨liq.getD 0, fdv.getD (mc.getD 0), age.getD 0, t1.getD 0, t24.getD 0,
                 v24.getD 0, v6.getD 0⟩
      else none) := by
  unfold categorize_token categorize_body hard_pass
  rw [parse_nums_mk]
  simp only [eBind_ok]
  cases hc : categorize_checks cfg rug
      (mkNumToken addr dev sym bundled liq fdv mc age t1 t24 v24 v6 price) with
  | error e => cases e; simp
  | ok b => cases b <;> simp

-- Concrete evaluation facts for the sample records.

theorem coin_bl_cfg0 (t : Token) : coin_in_blacklist cfg0 t = false := rfl

theorem dev_bl_cfg0 (t : Token) : dev_in_blacklist cfg0 t = false := rfl

theorem rugT_true (s : String) : rugT s = true := rfl

theorem eligible_tokVD : eligible cfg0 rugT tokVD = true := by
  unfold eligible tokVD
  rw [hard_pass_mk, advanced_mk]
  simp only [coin_bl_cfg0, dev_bl_cfg0, rugT_true, Option.getD_some, Option.getD_none]
  norm_num

theorem categorize_tokVD : categorize_token cfg0 rugT tokVD = some "Very Degen" := by
  unfold tokVD
  rw [categorize_token_mk]
  have hp : hard_pass cfg0 rugT (mkNumToken (some "A") none (some "X") none (some 15000)
      (some 100000) (some 200000) (some 1) (some 100) (some 0) (some 1000) (some 0)
      (some 1)) = true := by
    rw [hard_pass_mk]
    simp only [coin_bl_cfg0, dev_bl_cfg0, rugT_true, Option.getD_some, Option.getD_none]
    norm_num
  rw [if_pos hp]
  unfold tier_of
  norm_num

theorem score_tokVD : score_token tokVD = 2301/1000 := by
  unfold tokVD
  rw [score_token_mk]
  simp only [Option.getD_some]
  norm_num

theorem advanced_tokVD : advanced_rug_pull_check tokVD = false := by
  unfold tokVD
  rw [advanced_mk]
  simp only [Option.getD_some]
  norm_num

/-- Witness for C2: the sample VeryDegen record passes all rejection
checks, satisfies both the VeryDegen and the Degen predicates, and is
categorized Very Degen. -/
theorem C2_tier_priority_witness :
    eligible cfg0 rugT tokVD = true ∧
    categorize_token cfg0 rugT tokVD = some "Very Degen" := by
  have hp : parse_nums tokVD = Except.ok ⟨15000, 100000, 1, 100, 0, 1000, 0⟩ := by rfl
  exact ⟨eligible_tokVD,
    (C2_tier_priority cfg0 rugT tokVD ⟨15000, 100000, 1, 100, 0, 1000, 0⟩ hp
      eligible_tokVD).2.1 ⟨by norm_num [vd_pred], by norm_num [degen_pred]⟩⟩

/-- Claim C3: for every normalized token record, the score equals
marketCap/100000 + liquidityUsd/50000 + volumeUsd24h/1000000, where
marketCap is `marketCapUsd` with fallback to `fdvUsd` when absent, and
every missing field is taken as 0. -/
theorem C3_score_formula (addr dev sym : Option String) (bundled : Option Bool)
    (liq fdv mc age t1 t24 v24 v6 price : Option ℚ) :
    score_token (mkNumToken addr dev sym bundled liq fdv mc age t1 t24 v24 v6 price) =
      spec_score mc fdv liq v24 := by
  rw [score_token_mk]
  unfold spec_score
  cases mc <;> simp

/-- Claim C5: with buyPrice > 0, the monitor closes at Closed_Profit
exactly when the current price reaches buyPrice * profitMultiplier, at
Closed_StopLoss when it is at most buyPrice * stopLossRatio and the
profit condition does not hold, stays Open otherwise; concretely with
multiplier 2.0, ratio 0.8 and buy price 0.1, price 0.2 closes at profit,
0.08 closes at stop loss, and 0.15 leaves the position open. -/
theorem C5_monitor_close_conditions (mult sl buy cur : ℚ) (hb : 0 < buy) :
    (monitor_step mult sl buy cur = .Closed_Profit ↔ cur ≥ buy * mult) ∧
    (monitor_step mult sl buy cur = .Closed_StopLoss ↔
      (cur ≤ buy * sl ∧ ¬ cur ≥ buy * mult)) ∧
    (monitor_step mult sl buy cur = .Open ↔
      (¬ cur ≥ buy * mult ∧ ¬ cur ≤ buy * sl)) ∧
    monitor_step 2 (4/5) (1/10) (2/10) = .Closed_Profit ∧
    monitor_step 2 (4/5) (1/10) (8/100) = .Closed_StopLoss ∧
    monitor_step 2 (4/5) (1/10) (15/100) = .Open := by
  refine ⟨?_, ?_, ?_, ?_, ?_, ?_⟩
  · unfold monitor_step; split_ifs with h1 h2 <;> simp_all
  · unfold monitor_step; split_ifs with h1 h2 <;> simp_all
  · unfold monitor_step; split_ifs with h1 h2 <;> simp_all
  · unfold monitor_step; norm_num
  · unfold monitor_step; norm_num
  · unfold monitor_step; norm_num

/-- Witness for C5 at the concrete configuration of the claim. -/
theorem C5_monitor_close_conditions_witness :
    (0:ℚ) < 1/10 ∧ monitor_step 2 (4/5) (1/10) (2/10) = .Closed_Profit ∧
    monitor_step 2 (4/5) (1/10) (8/100) = .Closed_StopLoss ∧
    monitor_step 2 (4/5) (1/10) (15/100) = .Open := by
  have h := C5_monitor_close_conditions 2 (4/5) (1/10) (2/10) (by norm_num)
  exact ⟨by norm_num, h.2.2.2.1, h.2.2.2.2.1, h.2.2.2.2.2⟩

/-- Claim C9: the profit comparison runs before the stop-loss comparison,
so a price satisfying both closes the position via the profit branch,
and the stop-loss branch is never taken for it. -/
theorem C9_profit_priority (mult sl buy cur : ℚ)
    (h1 : cur ≥ buy * mult) (h2 : cur ≤ buy * sl) :
    monitor_step mult sl buy cur = .Closed_Profit ∧
    monitor_step mult sl buy cur ≠ .Closed_StopLoss := by
  unfold monitor_step
  rw [if_pos h1]
  exact ⟨rfl, by simp⟩

/-- Witness for C9: with multiplier = ratio = 1 (a misconfiguration where
the stop-loss bound is not below the target), price 1 on buy price 1
satisfies both conditions and closes via the profit branch. -/
theorem C9_profit_priority_witness :
    (1:ℚ) ≥ 1 * 1 ∧ (1:ℚ) ≤ 1 * 1 ∧
    monitor_step 1 1 1 1 = .Closed_Profit ∧
    monitor_step 1 1 1 1 ≠ .Closed_StopLoss := by
  have h := C9_profit_priority 1 1 1 1 (by norm_num) (by norm_num)
  exact ⟨by norm_num, by norm_num, h.1, h.2⟩

/-- Claim C8: fetch returns the list itself for a bare-list body, the
`data` field's value for an object body (the empty list when the field is
absent), and the empty list for any other body shape or on any
fetch/parse failure; the function is total, so no exception propagates. -/
theorem C8_fetch_shapes :
    (∀ l : List Token, fetch_tokens (.ok (.arr l)) = .arr l) ∧
    (∀ kvs : List (String × JsonVal),
      fetch_tokens (.ok (.obj kvs)) = (jlookup "data" kvs).getD (.arr [])) ∧
    (∀ kvs : List (String × JsonVal), jlookup "data" kvs = none →
      fetch_tokens (.ok (.obj kvs)) = .arr []) ∧
    fetch_tokens (.ok .prim) = .arr [] ∧
    (∀ e : Unit, fetch_tokens (.error e) = .arr []) ∧
    (∀ resp, fetch_tokens resp = spec_fetch resp) := by
  refine ⟨fun l => rfl, fun kvs => rfl, ?_, rfl, fun e => rfl, ?_⟩
  · intro kvs h
    simp [fetch_tokens, h]
  · intro resp
    unfold fetch_tokens spec_fetch
    cases resp with
    | error e => rfl
    | ok v =>
      cases v with
      | arr l => rfl
      | obj kvs => cases h : jlookup "data" kvs <;> simp [h]
      | prim => rfl

/-- Witness for C8: an object body without a `data` field yields the
empty list. -/
theorem C8_fetch_shapes_witness :
    jlookup "data" ([] : List (String × JsonVal)) = none ∧
    fetch_tokens (.ok (.obj [])) = .arr [] :=
  ⟨rfl, C8_fetch_shapes.2.2.1 [] rfl⟩

-- Facts about the sample record without an address.

theorem eligible_tokNoAddr : eligible cfg0 rugT tokNoAddr = true := by
  unfold eligible tokNoAddr
  rw [hard_pass_mk, advanced_mk]
  simp only [coin_bl_cfg0, dev_bl_cfg0, rugT_true, Option.getD_some, Option.getD_none]
  norm_num

theorem categorize_tokNoAddr : categorize_token cfg0 rugT tokNoAddr = some "Very Degen" := by
  unfold tokNoAddr
  rw [categorize_token_mk]
  have hp : hard_pass cfg0 rugT (mkNumToken none none (some "X") none (some 15000)
      (some 100000) (some 200000) (some 1) (some 100) (some 0) (some 1000) (some 0)
      (some 1)) = true := by
    rw [hard_pass_mk]
    simp only [coin_bl_cfg0, dev_bl_cfg0, rugT_true, Option.getD_some, Option.getD_none]
    norm_num
  rw [if_pos hp]
  unfold tier_of
  norm_num

theorem score_tokNoAddr : score_token tokNoAddr = 2301/1000 := by
  unfold tokNoAddr
  rw [score_token_mk]
  simp only [Option.getD_some]
  norm_num

theorem advanced_tokNoAddr : advanced_rug_pull_check tokNoAddr = false := by
  unfold tokNoAddr
  rw [advanced_mk]
  simp only [Option.getD_some]
  norm_num

/-- The category can be non-None only when the guard section passed. -/
theorem hard_pass_of_cat (cfg : Config) (rug : String → Bool) (t : Token)
    (h : categorize_token cfg rug t ≠ none) : hard_pass cfg rug t = true := by
  unfold categorize_token categorize_body at h
  unfold hard_pass
  cases hp : parse_nums t with
  | error e => cases e; rw [hp] at h; simp at h
  | ok n =>
    rw [hp] at h
    simp only [eBind_ok] at h
    cases hc : categorize_checks cfg rug t with
    | error e => cases e; rw [hc] at h; simp at h
    | ok b =>
      rw [hc] at h
      cases b
      · simp at h
      · rfl

/-- Counterexample to claim C4: a record that is evaluator-eligible with
a non-None category and a passing score, yet has no `tokenAddress`; the
Trade-Open operation is not invoked for it. -/
theorem C4_counterexample_missing_address :
    score_token tokNoAddr ≥ MIN_SCORE_THRESHOLD ∧
    eligible cfg0 rugT tokNoAddr = true ∧
    categorize_token cfg0 rugT tokNoAddr ≠ none ∧
    (buy_token_aux cfg0 rugT true tokNoAddr).1 = false := by
  refine ⟨?_, eligible_tokNoAddr, ?_, ?_⟩
  · rw [score_tokNoAddr]; unfold MIN_SCORE_THRESHOLD; norm_num
  · rw [categorize_tokNoAddr]; simp
  · unfold buy_token_aux
    rw [if_neg ?hguard]
    case hguard =>
      rw [categorize_tokNoAddr, score_tokNoAddr, advanced_tokNoAddr]
      unfold MIN_SCORE_THRESHOLD
      push_neg
      refine ⟨by simp, by norm_num, by simp⟩
    have ha : tokNoAddr.tokenAddress.getD "" = "" := rfl
    rw [if_pos ha]

/-- Claim C4 (amended): the Trade-Open (buy) operation is invoked for a
token passed to `buy_token` iff its score reaches MIN_SCORE_THRESHOLD,
it is evaluator-eligible with a non-None category, AND it carries a
non-empty `tokenAddress`; the conjunction is independent of evaluation
order and of the trade outcome. -/
theorem C4_buy_iff_amended (cfg : Config) (rug : String → Bool) (tradeOk : Bool) (t : Token) :
    (buy_token_aux cfg rug tradeOk t).1 = true ↔
      (score_token t ≥ MIN_SCORE_THRESHOLD ∧ eligible cfg rug t = true ∧
       categorize_token cfg rug t ≠ none ∧ t.tokenAddress.getD "" ≠ "") := by
  constructor
  · intro h
    unfold buy_token_aux at h
    by_cases hg : (categorize_token cfg rug t = none ∨
        score_token t < MIN_SCORE_THRESHOLD ∨ advanced_rug_pull_check t = true)
    · rw [if_pos hg] at h; simp at h
    · rw [if_neg hg] at h
      push_neg at hg
      obtain ⟨hcat, hscore, hadv⟩ := hg
      by_cases ha : t.tokenAddress.getD "" = ""
      · rw [if_pos ha] at h; simp at h
      · refine ⟨hscore, ?_, hcat, ha⟩
        unfold eligible
        rw [hard_pass_of_cat cfg rug t hcat]
        cases hv : advanced_rug_pull_check t
        · rfl
        · exact absurd hv hadv
  · rintro ⟨hscore, helig, hcat, haddr⟩
    have hadv : advanced_rug_pull_check t = false := by
      unfold eligible at helig
      cases hv : advanced_rug_pull_check t
      · rfl
      · rw [hv] at helig; simp at helig
    unfold buy_token_aux
    rw [if_neg (by push_neg; exact ⟨hcat, hscore, by simp [hadv]⟩ :
      ¬ (categorize_token cfg rug t = none ∨
         score_token t < MIN_SCORE_THRESHOLD ∨ advanced_rug_pull_check t = true))]
    rw [if_neg haddr]
    cases tradeOk <;> simp

-- Helper lemmas for the fail-safe claim.

theorem eBind_err_all {α β : Type} (x : Except Unit α) (f : α → Except Unit β)
    (h : ∀ a, f a = .error ()) : eBind x f = .error () := by
  cases x with
  | error e => cases e; rfl
  | ok a => exact h a

theorem isBadF_pyFloat {o : Option PyVal} (h : isBadF o = true) :
    pyFloat (getD0 o) = .error () := by
  unfold isBadF isBadV at h
  cases hp : pyFloat (getD0 o) with
  | error e => cases e; rfl
  | ok q => rw [hp] at h; simp at h

theorem badTruthy_parts {v : PyVal} (h : badTruthy v = true) :
    truthy v = true ∧ pyFloat v = .error () := by
  unfold badTruthy isBadV at h
  cases ht : truthy v
  · rw [ht] at h; simp at h
  · cases hp : pyFloat v with
    | error e => cases e; exact ⟨rfl, rfl⟩
    | ok q => rw [ht, hp] at h; simp at h

theorem parse_err_of_catBad {t : Token} (h : catAnyBad t = true) :
    parse_nums t = .error () := by
  unfold catAnyBad at h
  simp only [Bool.or_eq_true] at h
  unfold parse_nums
  rcases h with ((((((h | h) | h) | h) | h) | h) | h)
  · rw [isBadF_pyFloat h]; rfl
  · apply eBind_err_all; intro liquidity
    obtain ⟨ht, hf⟩ := badTruthy_parts h
    rw [if_pos ht, hf]
    rfl
  · apply eBind_err_all; intro liquidity
    apply eBind_err_all; intro fdv
    rw [isBadF_pyFloat h]; rfl
  · apply eBind_err_all; intro liquidity
    apply eBind_err_all; intro fdv
    apply eBind_err_all; intro pair_age
    rw [isBadF_pyFloat h]; rfl
  · apply eBind_err_all; intro liquidity
    apply eBind_err_all; intro fdv
    apply eBind_err_all; intro pair_age
    apply eBind_err_all; intro txns1h
    rw [isBadF_pyFloat h]; rfl
  · apply eBind_err_all; intro liquidity
    apply eBind_err_all; intro fdv
    apply eBind_err_all; intro pair_age
    apply eBind_err_all; intro txns1h
    apply eBind_err_all; intro txns24h
    rw [isBadF_pyFloat h]; rfl
  · apply eBind_err_all; intro liquidity
    apply eBind_err_all; intro fdv
    apply eBind_err_all; intro pair_age
    apply eBind_err_all; intro txns1h
    apply eBind_err_all; intro txns24h
    apply eBind_err_all; intro volume24h
    rw [isBadF_pyFloat h]; rfl

theorem cat_none_of_parse_err (cfg : Config) (rug : String → Bool) {t : Token}
    (h : parse_nums t = .error ()) : categorize_token cfg rug t = none := by
  unfold categorize_token categorize_body
  rw [h]
  rfl

theorem hard_pass_false_of_parse_err (cfg : Config) (rug : String → Bool) {t : Token}
    (h : parse_nums t = .error ()) : hard_pass cfg rug t = false := by
  unfold hard_pass categorize_checks
  rw [h]
  rfl

theorem score_zero_of_bad {t : Token} (h : scoreAnyBad t = true) :
    score_token t = 0 := by
  unfold scoreAnyBad at h
  simp only [Bool.or_eq_true] at h
  have hbody : score_body t = .error () := by
    unfold score_body
    rcases h with (h | h) | h
    · obtain ⟨ht, hf⟩ := badTruthy_parts h
      rw [if_pos ht, hf]
      rfl
    · apply eBind_err_all; intro market_cap
      rw [isBadF_pyFloat h]; rfl
    · apply eBind_err_all; intro market_cap
      apply eBind_err_all; intro liquidity
      rw [isBadF_pyFloat h]; rfl
  unfold score_token
  rw [hbody]

theorem adv_true_of_bad {t : Token} (h : advAnyBad t = true) :
    advanced_rug_pull_check t = true := by
  unfold advAnyBad at h
  simp only [Bool.or_eq_true] at h
  unfold advanced_rug_pull_check advanced_body
  rcases h with (h | h) | h
  · obtain ⟨ht, hf⟩ := badTruthy_parts h
    rw [if_pos ht, hf]
    rfl
  · cases hm : (if truthy (t.marketCapUsd.getD (getD0 t.fdvUsd)) then
        pyFloat (t.marketCapUsd.getD (getD0 t.fdvUsd)) else Except.ok 0) with
    | error e => cases e; rfl
    | ok market_cap =>
      simp only [eBind_ok]
      by_cases h5 : market_cap < 100000
      · rw [if_pos h5]
      · rw [if_neg h5, isBadF_pyFloat h]; rfl
  · cases hm : (if truthy (t.marketCapUsd.getD (getD0 t.fdvUsd)) then
        pyFloat (t.marketCapUsd.getD (getD0 t.fdvUsd)) else Except.ok 0) with
    | error e => cases e; rfl
    | ok market_cap =>
      simp only [eBind_ok]
      by_cases h5 : market_cap < 100000
      · rw [if_pos h5]
      · rw [if_neg h5]
        cases hv : pyFloat (getD0 t.volumeUsd24Hr) with
        | error e => cases e; rfl
        | ok volume =>
          simp only [eBind_ok]
          by_cases h6 : volume < 1000
          · rw [if_pos h6]
          · rw [if_neg h6, isBadF_pyFloat h]; rfl

theorem parse_nums_missing {t : Token} (h : allNumericMissing t) :
    parse_nums t = .ok ⟨0, 0, 0, 0, 0, 0, 0⟩ := by
  obtain ⟨h1, h2, h3, h4, h5, h6, h7, h8, h9⟩ := h
  unfold parse_nums
  rw [h1, h2, h3, h4, h5, h6, h7, h8]
  simp [getD0, truthy, pyFloat]

theorem checks_missing (cfg : Config) (rug : String → Bool) {t : Token}
    (h : allNumericMissing t) : categorize_checks cfg rug t = .ok false := by
  unfold categorize_checks verify_volume
  rw [parse_nums_missing h]
  obtain ⟨h1, h2, h3, h4, h5, h6, h7, h8, h9⟩ := h
  rw [h7]
  simp only [eBind_ok, getD0, Option.getD_none, pyFloat]
  by_cases hs : (coin_in_blacklist cfg t || dev_in_blacklist cfg t || !(check_supply t)) = true
  · rw [if_pos hs]
  · rw [if_neg hs]
    norm_num

theorem cat_missing (cfg : Config) (rug : String → Bool) {t : Token}
    (h : allNumericMissing t) : categorize_token cfg rug t = none := by
  unfold categorize_token categorize_body
  rw [parse_nums_missing h]
  simp only [eBind_ok]
  rw [checks_missing cfg rug h]
  simp

theorem score_missing {t : Token} (h : allNumericMissing t) : score_token t = 0 := by
  obtain ⟨h1, h2, h3, h4, h5, h6, h7, h8, h9⟩ := h
  unfold score_token score_body
  rw [h1, h2, h3, h7]
  simp [getD0, truthy, pyFloat]

theorem adv_missing {t : Token} (h : allNumericMissing t) :
    advanced_rug_pull_check t = true := by
  obtain ⟨h1, h2, h3, h4, h5, h6, h7, h8, h9⟩ := h
  unfold advanced_rug_pull_check advanced_body
  rw [h2, h3]
  simp only [Option.getD_none, getD0, truthy]
  norm_num

/-- Claim C6: evaluation and scoring are total and fail-safe. On a record
with an unparseable (non-numeric) field, the categorizer yields None and
eligibility is false; the scorer yields 0; the risk check flags the
record; and the buy path is never reached — an internal failure can make
the result only a reject, never an accept. A record with every numeric
field missing is likewise rejected with score 0. -/
theorem C6_fail_safe (cfg : Config) (rug : String → Bool) (tradeOk : Bool) (t : Token) :
    (catAnyBad t = true → categorize_token cfg rug t = none ∧ eligible cfg rug t = false) ∧
    (scoreAnyBad t = true → score_token t = 0) ∧
    (advAnyBad t = true → advanced_rug_pull_check t = true ∧ eligible cfg rug t = false) ∧
    ((catAnyBad t = true ∨ scoreAnyBad t = true ∨ advAnyBad t = true) →
      (buy_token_aux cfg rug tradeOk t).1 = false) ∧
    (allNumericMissing t → categorize_token cfg rug t = none ∧ score_token t = 0 ∧
      advanced_rug_pull_check t = true ∧ (buy_token_aux cfg rug tradeOk t).1 = false) := by
  have hA : catAnyBad t = true →
      categorize_token cfg rug t = none ∧ eligible cfg rug t = false := by
    intro h
    have hp := parse_err_of_catBad h
    refine ⟨cat_none_of_parse_err cfg rug hp, ?_⟩
    unfold eligible
    rw [hard_pass_false_of_parse_err cfg rug hp]
    rfl
  have hC : advAnyBad t = true →
      advanced_rug_pull_check t = true ∧ eligible cfg rug t = false := by
    intro h
    refine ⟨adv_true_of_bad h, ?_⟩
    unfold eligible
    rw [adv_true_of_bad h]
    simp
  have hD : (catAnyBad t = true ∨ scoreAnyBad t = true ∨ advAnyBad t = true) →
      (buy_token_aux cfg rug tradeOk t).1 = false := by
    rintro (h | h | h)
    · unfold buy_token_aux
      rw [if_pos (Or.inl (hA h).1)]
    · unfold buy_token_aux
      rw [if_pos (Or.inr (Or.inl (by
        rw [score_zero_of_bad h]; unfold MIN_SCORE_THRESHOLD; norm_num)))]
    · unfold buy_token_aux
      rw [if_pos (Or.inr (Or.inr (adv_true_of_bad h)))]
  have hE : allNumericMissing t → categorize_token cfg rug t = none ∧ score_token t = 0 ∧
      advanced_rug_pull_check t = true ∧ (buy_token_aux cfg rug tradeOk t).1 = false := by
    intro h
    refine ⟨cat_missing cfg rug h, score_missing h, adv_missing h, ?_⟩
    unfold buy_token_aux
    rw [if_pos (Or.inl (cat_missing cfg rug h))]
  exact ⟨hA, fun h => score_zero_of_bad h, hC, hD, hE⟩

/-- Witness for C6: the sample malformed record (non-numeric liquidity,
market cap and price) is rejected everywhere with score 0, and so is the
record with every field absent. -/
theorem C6_fail_safe_witness :
    (catAnyBad tokBad = true ∧ scoreAnyBad tokBad = true ∧ advAnyBad tokBad = true ∧
      allNumericMissing tokEmpty) ∧
    (categorize_token cfg0 rugT tokBad = none ∧ eligible cfg0 rugT tokBad = false) ∧
    score_token tokBad = 0 ∧
    advanced_rug_pull_check tokBad = true ∧
    (buy_token_aux cfg0 rugT true tokBad).1 = false ∧
    (categorize_token cfg0 rugT tokEmpty = none ∧ score_token tokEmpty = 0 ∧
      advanced_rug_pull_check tokEmpty = true ∧
      (buy_token_aux cfg0 rugT true tokEmpty).1 = false) := by
  have h1 : catAnyBad tokBad = true := by decide
  have h2 : scoreAnyBad tokBad = true := by decide
  have h3 : advAnyBad tokBad = true := by decide
  have h4 : allNumericMissing tokEmpty := by decide
  have hmain := C6_fail_safe cfg0 rugT true tokBad
  have hmain2 := C6_fail_safe cfg0 rugT true tokEmpty
  exact ⟨⟨h1, h2, h3, h4⟩, hmain.1 h1, hmain.2.1 h2, (hmain.2.2.1 h3).1,
    hmain.2.2.2.1 (Or.inl h1), hmain2.2.2.2.2 h4⟩

-- Facts about tokVD2 (same address as tokVD, different symbol) and tokDust.

theorem categorize_tokVD2 : categorize_token cfg0 rugT tokVD2 = some "Very Degen" := by
  unfold tokVD2
  rw [categorize_token_mk]
  have hp : hard_pass cfg0 rugT (mkNumToken (some "A") none (some "Y") none (some 15000)
      (some 100000) (some 200000) (some 1) (some 100) (some 0) (some 1000) (some 0)
      (some 1)) = true := by
    rw [hard_pass_mk]
    simp only [coin_bl_cfg0, dev_bl_cfg0, rugT_true, Option.getD_some, Option.getD_none]
    norm_num
  rw [if_pos hp]
  unfold tier_of
  norm_num

theorem score_tokVD2 : score_token tokVD2 = 2301/1000 := by
  unfold tokVD2
  rw [score_token_mk]
  simp only [Option.getD_some]
  norm_num

theorem advanced_tokVD2 : advanced_rug_pull_check tokVD2 = false := by
  unfold tokVD2
  rw [advanced_mk]
  simp only [Option.getD_some]
  norm_num

theorem advanced_tokDust : advanced_rug_pull_check tokDust = true := by
  unfold tokDust
  rw [advanced_mk]
  simp only [Option.getD_some]
  norm_num

theorem buy_guard_tokVD :
    ¬ (categorize_token cfg0 rugT tokVD = none ∨
       score_token tokVD < MIN_SCORE_THRESHOLD ∨
       advanced_rug_pull_check tokVD = true) := by
  push_neg
  refine ⟨by rw [categorize_tokVD]; simp, ?_, by rw [advanced_tokVD]; simp⟩
  rw [score_tokVD]
  unfold MIN_SCORE_THRESHOLD
  norm_num

theorem buy_tokVD :
    buy_token cfg0 rugT true tokVD = some ⟨tokVD, 1/10, RISK_AMOUNT / (1/10)⟩ := by
  unfold buy_token buy_token_aux
  rw [if_neg buy_guard_tokVD]
  rw [if_neg (show ¬ tokVD.tokenAddress.getD "" = "" by decide)]
  simp

theorem buy_guard_tokVD2 :
    ¬ (categorize_token cfg0 rugT tokVD2 = none ∨
       score_token tokVD2 < MIN_SCORE_THRESHOLD ∨
       advanced_rug_pull_check tokVD2 = true) := by
  push_neg
  refine ⟨by rw [categorize_tokVD2]; simp, ?_, by rw [advanced_tokVD2]; simp⟩
  rw [score_tokVD2]
  unfold MIN_SCORE_THRESHOLD
  norm_num

theorem buy_tokVD2 :
    buy_token cfg0 rugT true tokVD2 = some ⟨tokVD2, 1/10, RISK_AMOUNT / (1/10)⟩ := by
  unfold buy_token buy_token_aux
  rw [if_neg buy_guard_tokVD2]
  rw [if_neg (show ¬ tokVD2.tokenAddress.getD "" = "" by decide)]
  simp

theorem buy_tokDust : buy_token cfg0 rugT true tokDust = none := by
  unfold buy_token buy_token_aux
  rw [if_pos (Or.inr (Or.inr advanced_tokDust))]

/-- Counterexample to claim C10: two fetched records that differ only in
`priceUsd` do not produce identical positions — the dust-price check
reads `priceUsd`, so one run opens a position and the other opens none. -/
theorem C10_counterexample_price_dependence :
    tokDust = { tokVD with priceUsd := some (.num (1/20000)) } ∧
    (buy_token cfg0 rugT true tokVD).isSome = true ∧
    buy_token cfg0 rugT true tokDust = none := by
  refine ⟨rfl, ?_, buy_tokDust⟩
  rw [buy_tokVD]
  rfl

/-- Claim C10 (amended): every successfully opened position records the
constant entry price 0.1 and quantity RISK_AMOUNT / 0.1, independent of
the token's priceUsd and of the trade execution result (simulation or
real mode alike); however, priceUsd can decide whether a position opens
at all (the dust-price check), and the opened position embeds the full
token record, so two runs whose inputs differ only in priceUsd need not
produce identical positions. -/
theorem C10_entry_price_amended (cfg : Config) (rug : String → Bool)
    (tradeOk : Bool) (t : Token) (p : Position)
    (h : buy_token cfg rug tradeOk t = some p) :
    p.buy_price = 1/10 ∧ p.quantity = RISK_AMOUNT / (1/10) ∧ p.token = t := by
  unfold buy_token buy_token_aux at h
  by_cases hg : (categorize_token cfg rug t = none ∨
      score_token t < MIN_SCORE_THRESHOLD ∨ advanced_rug_pull_check t = true)
  · rw [if_pos hg] at h
    simp at h
  · rw [if_neg hg] at h
    by_cases ha : t.tokenAddress.getD "" = ""
    · rw [if_pos ha] at h
      simp at h
    · rw [if_neg ha] at h
      cases tradeOk with
      | false => simp at h
      | true =>
        simp at h
        subst h
        exact ⟨by norm_num, by norm_num [RISK_AMOUNT], rfl⟩

/-- Witness for C10: the sample eligible record opens a position with
entry price 0.1 and quantity RISK_AMOUNT / 0.1. -/
theorem C10_entry_price_amended_witness :
    buy_token cfg0 rugT true tokVD = some ⟨tokVD, 1/10, RISK_AMOUNT / (1/10)⟩ ∧
    (⟨tokVD, 1/10, RISK_AMOUNT / (1/10)⟩ : Position).buy_price = 1/10 ∧
    (⟨tokVD, 1/10, RISK_AMOUNT / (1/10)⟩ : Position).quantity = RISK_AMOUNT / (1/10) := by
  have h := C10_entry_price_amended cfg0 rugT true tokVD
    ⟨tokVD, 1/10, RISK_AMOUNT / (1/10)⟩ buy_tokVD
  exact ⟨buy_tokVD, h.1, h.2.1⟩

-- Concrete single-tick computations for the discovery loop.

theorem filter_tokVD : filter_tokens [tokVD] MIN_SCORE_THRESHOLD = [tokVD] := by
  unfold filter_tokens MIN_SCORE_THRESHOLD
  simp only [List.filter, score_tokVD]
  norm_num

theorem filter_tokVD2 : filter_tokens [tokVD2] MIN_SCORE_THRESHOLD = [tokVD2] := by
  unfold filter_tokens MIN_SCORE_THRESHOLD
  simp only [List.filter, score_tokVD2]
  norm_num

theorem tick_tokVD_rediscovered :
    discovery_tick cfg0 rugT true ["X"] [tokVD] = ⟨["X"], [], [tokVD]⟩ := by
  unfold discovery_tick
  rw [filter_tokVD]
  simp only [List.foldl_cons, List.foldl_nil]
  unfold tick_fold
  rw [categorize_tokVD]
  simp [show symOf tokVD = "X" from rfl]

theorem tick_tokVD2_rebuys :
    discovery_tick cfg0 rugT true ["X"] [tokVD2] =
      ⟨["X", "Y"], [⟨tokVD2, 1/10, RISK_AMOUNT / (1/10)⟩], [tokVD2]⟩ := by
  unfold discovery_tick
  rw [filter_tokVD2]
  simp only [List.foldl_cons, List.foldl_nil]
  unfold tick_fold
  rw [categorize_tokVD2, buy_tokVD2]
  simp [show symOf tokVD2 = "Y" from rfl]

/-- Counterexample to claim C7: the dedup key of the source is the
symbol, not the address, and the dedup test runs only after
categorization. With key X already in `discovered`, a pass over the same
record still applies `categorize_token` to it (it is re-evaluated), and
a record with the SAME address A under a different symbol Y is not
skipped: it is bought a second time. -/
theorem C7_counterexample_dedup :
    symOf tokVD ∈ ["X"] ∧
    (discovery_tick cfg0 rugT true ["X"] [tokVD]).evald = [tokVD] ∧
    tokVD2.tokenAddress = tokVD.tokenAddress ∧
    (discovery_tick cfg0 rugT true ["X"] [tokVD2]).buys ≠ [] := by
  refine ⟨by simp [show symOf tokVD = "X" from rfl], ?_, rfl, ?_⟩
  · rw [tick_tokVD_rediscovered]
  · rw [tick_tokVD2_rebuys]
    simp

/-- Claim C7 (amended): the discovered set is keyed by the token's
symbol, falling back to its address; it stays duplicate-free across a
tick (one entry per key), and a token whose key is already discovered is
never re-bought and leaves the set unchanged — but each tick still
re-scores every fetched token and re-categorizes every token passing the
score filter, even those already discovered. -/
theorem C7_dedup_amended (cfg : Config) (rug : String → Bool) (tradeOk : Bool) :
    (∀ (d : List String) (tokens : List Token), d.Nodup →
      ((discovery_tick cfg rug tradeOk d tokens).discovered).Nodup) ∧
    (∀ (d : List String) (t : Token), symOf t ∈ d →
      (discovery_tick cfg rug tradeOk d [t]).buys = [] ∧
      (discovery_tick cfg rug tradeOk d [t]).discovered = d) ∧
    (∀ (d : List String) (t : Token), score_token t ≥ MIN_SCORE_THRESHOLD →
      (discovery_tick cfg rug tradeOk d [t]).evald = [t]) := by
  have hfold : ∀ (tokens : List Token) (st : TickRes), st.discovered.Nodup →
      ((tokens.foldl (tick_fold cfg rug tradeOk) st).discovered).Nodup := by
    intro tokens
    induction tokens with
    | nil => intro st h; exact h
    | cons t ts ih =>
      intro st h
      simp only [List.foldl_cons]
      apply ih
      unfold tick_fold
      by_cases hc : categorize_token cfg rug t = none
      · simp [hc, h]
      · simp only [hc, if_false]
        by_cases hm : symOf t ∈ st.discovered
        · simp [hm, h]
        · simp only [hm, if_false]
          cases hb : buy_token cfg rug tradeOk t <;>
            simp [List.nodup_append, h, hm]
  refine ⟨?_, ?_, ?_⟩
  · intro d tokens h
    unfold discovery_tick
    exact hfold _ ⟨d, [], []⟩ h
  · intro d t hm
    unfold discovery_tick filter_tokens
    by_cases hs : score_token t ≥ MIN_SCORE_THRESHOLD
    · simp only [List.filter, hs, decide_True, List.foldl_cons, List.foldl_nil]
      unfold tick_fold
      by_cases hc : categorize_token cfg rug t = none
      · simp [hc]
      · simp [hc, hm]
    · simp only [List.filter, hs, decide_False, List.foldl_nil]
      simp
  · intro d t hs
    unfold discovery_tick filter_tokens
    simp only [List.filter, hs, decide_True, List.foldl_cons, List.foldl_nil]
    unfold tick_fold
    by_cases hc : categorize_token cfg rug t = none
    · simp [hc]
    · simp only [hc, if_false]
      by_cases hm : symOf t ∈ d
      · simp [hm]
      · simp only [hm]
        cases hb : buy_token cfg rug tradeOk t <;> simp [hb, hm]

/-- Witness for C7 (amended): key X is already discovered, so a second
pass over the sample record buys nothing and leaves the set unchanged
and duplicate-free, yet the record is still re-evaluated. -/
theorem C7_dedup_amended_witness :
    List.Nodup ["X"] ∧ symOf tokVD ∈ ["X"] ∧
    score_token tokVD ≥ MIN_SCORE_THRESHOLD ∧
    ((discovery_tick cfg0 rugT true ["X"] [tokVD]).discovered).Nodup ∧
    (discovery_tick cfg0 rugT true ["X"] [tokVD]).buys = [] ∧
    (discovery_tick cfg0 rugT true ["X"] [tokVD]).discovered = ["X"] ∧
    (discovery_tick cfg0 rugT true ["X"] [tokVD]).evald = [tokVD] := by
  have h := C7_dedup_amended cfg0 rugT true
  have hnd : List.Nodup ["X"] := by simp
  have hm : symOf tokVD ∈ ["X"] := by simp [show symOf tokVD = "X" from rfl]
  have hsc : score_token tokVD ≥ MIN_SCORE_THRESHOLD := by
    rw [score_tokVD]
    unfold MIN_SCORE_THRESHOLD
    norm_num
  exact ⟨hnd, hm, hsc, h.1 ["X"] [tokVD] hnd, (h.2.1 ["X"] tokVD hm).1,
    (h.2.1 ["X"] tokVD hm).2, h.2.2 ["X"] tokVD hsc⟩
